import Mathlib

set_option maxHeartbeats 800000

/-!
Shallow embedding of `src/backend/internal/services/user.service.go`
(package `services` of the meals-finder backend).

Go functions returning `(T, error)` are embedded as Lean functions
returning `T × Option GoError`.  The database connection is embedded as an
explicit state value of an abstract type `σ` threaded through the
repository operations, and the external collaborators the service calls —
the generated query layer, `bcrypt`, the JWT library, request validation —
are abstracted as records of functions (`Repo`, `Env`), so the theorems
quantify over every possible outcome of those calls.  The clock is
embedded as an explicit `now : Int` (Unix seconds).
-/

/-- Go `error` values as seen by the service: the two sentinel errors
`ErrUnauthorizedUser` and `ErrInternalFailure` that the services package
defines (their defining file lies outside `src/`), and any other error —
store, driver or library originated — carried with its message. -/
inductive GoError where
  | errUnauthorizedUser : GoError
  | errInternalFailure : GoError
  | otherError : String → GoError
  deriving DecidableEq, Repr, Inhabited

/-- Embeds `models.LoginUserRequest` (fields `Login`, `Password`). -/
structure LoginUserRequest where
  login : String
  password : String
  deriving DecidableEq, Repr, Inhabited

/-- Embeds `models.CreateUserRequest`.  Its `Passwdhash` field carries the
plaintext password supplied at registration (the Go model reuses the
column name for the request field). -/
structure CreateUserRequest where
  username : String
  passwdhash : String
  email : String
  phoneNumber : String
  age : Int
  sex : String
  deriving DecidableEq, Repr, Inhabited

/-- Embeds `models.UpdateUserSettingsRequest`. -/
structure UpdateUserSettingsRequest where
  email : String
  name : String
  surname : String
  phoneNumber : String
  age : Int
  sex : String
  weight : Int
  height : Int
  bmi : Int
  deriving DecidableEq, Repr, Inhabited

/-- Embeds `models.UserTag` (fields `Name`, `TagType`). -/
structure UserTag where
  name : String
  tagType : String
  deriving DecidableEq, Repr, Inhabited

/-- Embeds the row returned by `repository.LoginUserWithUsername`, with
the fields the service reads: `Username` and `Passwdhash`. -/
structure LoginUserWithUsernameRow where
  username : String
  passwdhash : String
  deriving DecidableEq, Repr, Inhabited

/-- Embeds `repository.GetUserDataRow` (profile fields of one user). -/
structure GetUserDataRow where
  username : String
  email : String
  name : String
  surname : String
  phoneNumber : String
  age : Int
  sex : String
  weight : Int
  height : Int
  bmi : Int
  deriving DecidableEq, Repr, Inhabited

/-- Embeds `repository.CreateUserParams`. -/
structure CreateUserParams where
  username : String
  passwdhash : String
  email : String
  phoneNumber : String
  age : Int
  sex : String
  deriving DecidableEq, Repr, Inhabited

/-- Embeds `repository.UpdateUserSettingsParams`. -/
structure UpdateUserSettingsParams where
  username : String
  email : String
  name : String
  surname : String
  phoneNumber : String
  age : Int
  sex : String
  weight : Int
  height : Int
  bmi : Int
  deriving DecidableEq, Repr, Inhabited

/-- Embeds `repository.InsertUserTagParams`. -/
structure InsertUserTagParams where
  username : String
  tagName : String
  tagTypeName : String
  deriving DecidableEq, Repr, Inhabited

/-- Embeds `repository.DeleteUserTagParams`. -/
structure DeleteUserTagParams where
  username : String
  tagName : String
  deriving DecidableEq, Repr, Inhabited

/-- Embeds `repository.DisplayUserTagRow`: one (tag name, tag type) pair. -/
structure DisplayUserTagRow where
  tagName : String
  tagTypeName : String
  deriving DecidableEq, Repr, Inhabited

/-- Record of the query-layer operations the service calls on `s.Repo`,
over an abstract store state `σ`.  Each mutating operation returns the
possibly-updated store state together with its Go result.  Quantifying
over `Repo` values makes theorems cover every store outcome. -/
structure Repo (σ : Type) where
  loginUserWithUsername : σ → String → LoginUserWithUsernameRow × Option GoError
  createUser : σ → CreateUserParams → σ × Option GoError
  getUserData : σ → String → GetUserDataRow × Option GoError
  updateUserSettings : σ → UpdateUserSettingsParams → σ × Option GoError
  insertUserTag : σ → InsertUserTagParams → σ × Option GoError
  deleteUserTag : σ → DeleteUserTagParams → σ × Option GoError
  displayUserTag : σ → String → List DisplayUserTagRow × Option GoError

/-- Claims of the JWT issued by the service: `"sub"`, `"exp"`, `"iat"`. -/
structure JwtClaims where
  sub : String
  exp : Int
  iat : Int
  deriving DecidableEq, Repr, Inhabited

/-- External collaborators of the service.  `key` embeds the process-wide
`var key []byte = []byte(os.Getenv("APP_JWT_KEY"))`; `validate` embeds
`models.CreateUserRequest.Validate` (its rules live outside `src/` and are
treated as opaque); `bcryptHash` and `bcryptCompare` embed
`bcrypt.GenerateFromPassword` and `bcrypt.CompareHashAndPassword` (a
`none` comparison result means the password verified); `sign` embeds
building the HS256 token and calling `SignedString` on it with a key. -/
structure Env where
  key : String
  validate : CreateUserRequest → Option GoError
  bcryptHash : String → String × Option GoError
  bcryptCompare : String → String → Option GoError
  sign : JwtClaims → String → String × Option GoError

/-- Embeds `BaseUserService.generateJWT`: claims `sub` = username,
`exp` = now + 24h, `iat` = now, signed with the process-wide key.  The two
`time.Now()` reads inside one call are embedded as the single instant
`now`. -/
def BaseUserService.generateJWT (env : Env) (now : Int) (username : String) :
    String × Option GoError :=
  env.sign { sub := username, exp := now + 24 * 60 * 60, iat := now } env.key

/-- Embeds `BaseUserService.LoginUser`: look the user up by
`loginData.Login`; any lookup error yields `ErrUnauthorizedUser`; a failed
bcrypt comparison yields `ErrUnauthorizedUser`; a signing error yields
`ErrInternalFailure`; otherwise the signed token is returned. -/
def BaseUserService.LoginUser {σ : Type} (env : Env) (repo : Repo σ) (st : σ)
    (now : Int) (loginData : LoginUserRequest) : String × Option GoError :=
  let res := repo.loginUserWithUsername st loginData.login
  match res.2 with
  | some _ => ("", some GoError.errUnauthorizedUser)
  | none =>
    match env.bcryptCompare res.1.passwdhash loginData.password with
    | some _ => ("", some GoError.errUnauthorizedUser)
    | none =>
      let jt := BaseUserService.generateJWT env now res.1.username
      match jt.2 with
      | some _ => ("", some GoError.errInternalFailure)
      | none => (jt.1, none)

/-- Embeds `BaseUserService.CreateUser`: validation failure, hashing
failure and store-insert failure all yield `ErrInternalFailure`; otherwise
the user row with the bcrypt hash is inserted. -/
def BaseUserService.CreateUser {σ : Type} (env : Env) (repo : Repo σ) (st : σ)
    (req : CreateUserRequest) : σ × Option GoError :=
  match env.validate req with
  | some _ => (st, some GoError.errInternalFailure)
  | none =>
    let hashed := env.bcryptHash req.passwdhash
    match hashed.2 with
    | some _ => (st, some GoError.errInternalFailure)
    | none =>
      let res := repo.createUser st
        { username := req.username, passwdhash := hashed.1, email := req.email,
          phoneNumber := req.phoneNumber, age := req.age, sex := req.sex }
      match res.2 with
      | some _ => (res.1, some GoError.errInternalFailure)
      | none => (res.1, none)

/-- Embeds `BaseUserService.GetUser`: a single lookup whose row and error
are both returned unchanged. -/
def BaseUserService.GetUser {σ : Type} (repo : Repo σ) (st : σ)
    (username : String) : GetUserDataRow × Option GoError :=
  repo.getUserData st username

/-- Embeds `BaseUserService.UpdateUserSettings`: one store update; any
store error yields `ErrInternalFailure`. -/
def BaseUserService.UpdateUserSettings {σ : Type} (repo : Repo σ) (st : σ)
    (req : UpdateUserSettingsRequest) (username : String) : σ × Option GoError :=
  let res := repo.updateUserSettings st
    { username := username, email := req.email, name := req.name,
      surname := req.surname, phoneNumber := req.phoneNumber, age := req.age,
      sex := req.sex, weight := req.weight, height := req.height, bmi := req.bmi }
  match res.2 with
  | some _ => (res.1, some GoError.errInternalFailure)
  | none => (res.1, none)

/-- Embeds `BaseUserService.AddUserTag`: one tag insert; a store error is
logged and returned unchanged. -/
def BaseUserService.AddUserTag {σ : Type} (repo : Repo σ) (st : σ)
    (username : String) (userTag : UserTag) : σ × Option GoError :=
  let res := repo.insertUserTag st
    { username := username, tagName := userTag.name, tagTypeName := userTag.tagType }
  match res.2 with
  | some e => (res.1, some e)
  | none => (res.1, none)

/-- Embeds `BaseUserService.DeleteUserTag`: one tag delete by composite
key; a store error is logged and returned unchanged. -/
def BaseUserService.DeleteUserTag {σ : Type} (repo : Repo σ) (st : σ)
    (username : String) (tagName : String) : σ × Option GoError :=
  let res := repo.deleteUserTag st { username := username, tagName := tagName }
  match res.2 with
  | some e => (res.1, some e)
  | none => (res.1, none)

/-- Embeds `BaseUserService.DisplayUserTag`: fetch the user's tags; on a
store error the service returns `nil` (embedded `[]`) together with the
unchanged error. -/
def BaseUserService.DisplayUserTag {σ : Type} (repo : Repo σ) (st : σ)
    (username : String) : List DisplayUserTagRow × Option GoError :=
  let res := repo.displayUserTag st username
  match res.2 with
  | some e => ([], some e)
  | none => (res.1, none)

/-- Embeds `MockUserService.LoginUser`: fabricates a token with the fixed
subject `"testUser"` signed with the process key, consulting no store (it
takes no store state at all) and ignoring the login data. -/
def MockUserService.LoginUser (env : Env) (now : Int)
    (_loginData : LoginUserRequest) : String × Option GoError :=
  env.sign { sub := "testUser", exp := now + 24 * 60 * 60, iat := now } env.key

/-- Embeds `MockUserService.CreateUser`: always succeeds. -/
def MockUserService.CreateUser (_req : CreateUserRequest) : Option GoError :=
  none

/-- Modelled from the spec: a user row of the credential store (§3 "User"
— unique username, password hash, contact, demographic and physical
profile fields).  The store schema and generated queries lie outside
`src/`. -/
structure UserRow where
  username : String
  passwdhash : String
  email : String
  phoneNumber : String
  age : Int
  sex : String
  name : String
  surname : String
  weight : Int
  height : Int
  bmi : Int
  deriving DecidableEq, Repr, Inhabited

/-- Modelled from the spec: a tag row (§3 "User Tag" — a (username, tag
name, tag type) triple, (username, tag name) unique). -/
structure TagRow where
  username : String
  tagName : String
  tagTypeName : String
  deriving DecidableEq, Repr, Inhabited

/-- Modelled from the spec: the relational store state (§2 "Credential
store"): user rows and tag rows. -/
structure Store where
  users : List UserRow
  tags : List TagRow
  deriving DecidableEq, Repr, Inhabited

/-- Modelled from the spec: the `LoginUserWithUsername` query — look one
user up by username; no matching row is a store error (`pgx.ErrNoRows`). -/
def specLoginUserWithUsername (st : Store) (username : String) :
    LoginUserWithUsernameRow × Option GoError :=
  match st.users.find? (fun r => r.username == username) with
  | some r => ({ username := r.username, passwdhash := r.passwdhash }, none)
  | none => (default, some (GoError.otherError "no rows in result set"))

/-- Modelled from the spec: the user row an insert creates — the supplied
registration fields, with the not-yet-set physical-profile fields empty. -/
def specNewUserRow (p : CreateUserParams) : UserRow :=
  { username := p.username, passwdhash := p.passwdhash, email := p.email,
    phoneNumber := p.phoneNumber, age := p.age, sex := p.sex,
    name := "", surname := "", weight := 0, height := 0, bmi := 0 }

/-- Modelled from the spec: the `CreateUser` insert — the store enforces
username uniqueness (§3), so inserting an existing username fails;
otherwise the row is appended. -/
def specCreateUser (st : Store) (p : CreateUserParams) : Store × Option GoError :=
  if st.users.any (fun r => r.username == p.username) then
    (st, some (GoError.otherError "duplicate key value violates unique constraint"))
  else
    ({ st with users := st.users ++ [specNewUserRow p] }, none)

/-- Modelled from the spec: the `GetUserData` query — single lookup of one
user's profile fields; no matching row is a store error. -/
def specGetUserData (st : Store) (username : String) :
    GetUserDataRow × Option GoError :=
  match st.users.find? (fun r => r.username == username) with
  | some r =>
    ({ username := r.username, email := r.email, name := r.name,
       surname := r.surname, phoneNumber := r.phoneNumber, age := r.age,
       sex := r.sex, weight := r.weight, height := r.height, bmi := r.bmi }, none)
  | none => (default, some (GoError.otherError "no rows in result set"))

/-- Modelled from the spec: the `UpdateUserSettings` update — overwrite
the profile fields of the row with the given username. -/
def specUpdateUserSettings (st : Store) (p : UpdateUserSettingsParams) :
    Store × Option GoError :=
  ({ st with users := st.users.map (fun r =>
      if r.username == p.username then
        { r with
          email := p.email, name := p.name, surname := p.surname,
          phoneNumber := p.phoneNumber, age := p.age, sex := p.sex,
          weight := p.weight, height := p.height, bmi := p.bmi }
      else r) }, none)

/-- Modelled from the spec: the `InsertUserTag` insert — the store
enforces uniqueness of (username, tag name) (§3), so a duplicate insert
fails; otherwise the tag row is appended. -/
def specInsertUserTag (st : Store) (p : InsertUserTagParams) :
    Store × Option GoError :=
  if st.tags.any (fun t => t.username == p.username && t.tagName == p.tagName) then
    (st, some (GoError.otherError "duplicate key value violates unique constraint"))
  else
    ({ st with tags := st.tags ++
        [{ username := p.username, tagName := p.tagName,
           tagTypeName := p.tagTypeName }] }, none)

/-- Modelled from the spec: the `DeleteUserTag` delete — remove the tag
rows matching the (username, tag name) composite key; deleting an absent
row is still a successful SQL delete. -/
def specDeleteUserTag (st : Store) (p : DeleteUserTagParams) :
    Store × Option GoError :=
  ({ st with tags := st.tags.filter (fun t =>
      !(t.username == p.username && t.tagName == p.tagName)) }, none)

/-- Modelled from the spec: the `DisplayUserTag` query — list the (tag
name, tag type) pairs of all tag rows of the given user. -/
def specDisplayUserTag (st : Store) (username : String) :
    List DisplayUserTagRow × Option GoError :=
  (st.tags.filterMap (fun t =>
      if t.username == username then
        some { tagName := t.tagName, tagTypeName := t.tagTypeName }
      else none), none)

/-- Modelled from the spec: the query layer over the concrete store. -/
def specRepo : Repo Store where
  loginUserWithUsername := specLoginUserWithUsername
  createUser := specCreateUser
  getUserData := specGetUserData
  updateUserSettings := specUpdateUserSettings
  insertUserTag := specInsertUserTag
  deleteUserTag := specDeleteUserTag
  displayUserTag := specDisplayUserTag

/-- Fixed tag prepended by the test bcrypt model: injective and never the
identity, like a real bcrypt digest. -/
def testHash (pw : String) : String := "$2b$10$" ++ pw

/-- Concrete collaborator instance used to evaluate the theorems on
closed inputs: validation always passes, hashing prepends a fixed tag,
comparison checks against that scheme, and signing is a total encoding of
the claims and key. -/
def testEnv : Env where
  key := "secret"
  validate := fun _ => none
  bcryptHash := fun pw => (testHash pw, none)
  bcryptCompare := fun h pw =>
    if h == testHash pw then none
    else some (GoError.otherError "hashedPassword is not the hash of the given password")
  sign := fun c k =>
    ("hdr." ++ c.sub ++ "." ++ toString c.iat ++ "." ++ toString c.exp ++ "." ++ k, none)

/-- Collaborator instance whose request validation always rejects. -/
def rejectEnv : Env :=
  { testEnv with validate := fun _ => some (GoError.otherError "invalid request") }

/-- Repository instance whose every operation fails with one fixed store
error, over the trivial store state. -/
def failRepo : Repo Unit where
  loginUserWithUsername := fun _ _ => (default, some (GoError.otherError "boom"))
  createUser := fun _ _ => ((), some (GoError.otherError "boom"))
  getUserData := fun _ _ => (default, some (GoError.otherError "boom"))
  updateUserSettings := fun _ _ => ((), some (GoError.otherError "boom"))
  insertUserTag := fun _ _ => ((), some (GoError.otherError "boom"))
  deleteUserTag := fun _ _ => ((), some (GoError.otherError "boom"))
  displayUserTag := fun _ _ => ([], some (GoError.otherError "boom"))

/-- Store fixture: one registered user `alice` with the test hash of
`pw1`, and one tag row. -/
def testStore : Store where
  users := [{ username := "alice", passwdhash := testHash "pw1",
              email := "alice@example.com", phoneNumber := "123", age := 30,
              sex := "f", name := "", surname := "", weight := 0, height := 0,
              bmi := 0 }]
  tags := [{ username := "alice", tagName := "vegan", tagTypeName := "diet" }]

/-- Registration request fixture. -/
def req0 : CreateUserRequest where
  username := "alice"
  passwdhash := "pw1"
  email := "alice@example.com"
  phoneNumber := "123"
  age := 30
  sex := "f"

lemma testHash_inj {a b : String} (h : testHash a = testHash b) : a = b := by
  have hd := congrArg String.data h
  simp only [testHash, String.data_append] at hd
  exact String.ext (List.append_cancel_left hd)

lemma testHash_ne (pw : String) : testHash pw ≠ pw := by
  intro h
  have := congrArg String.length h
  rw [testHash, String.length_append] at this
  have h7 : "$2b$10$".length = 7 := by decide
  rw [h7] at this
  omega

lemma testEnv_hash_ne : ∀ pw h, testEnv.bcryptHash pw = (h, none) → h ≠ pw := by
  intro pw h hh
  simp only [testEnv] at hh
  injection hh with h1 _
  subst h1
  exact testHash_ne pw

lemma testEnv_compare_ok : ∀ pw h, testEnv.bcryptHash pw = (h, none) →
    testEnv.bcryptCompare h pw = none := by
  intro pw h hh
  simp only [testEnv] at hh ⊢
  injection hh with h1 _
  subst h1
  simp

lemma testEnv_compare_bad : ∀ pw pw' h, testEnv.bcryptHash pw = (h, none) →
    pw' ≠ pw → testEnv.bcryptCompare h pw' ≠ none := by
  intro pw pw' h hh hne
  simp only [testEnv] at hh ⊢
  injection hh with h1 _
  subst h1
  have : testHash pw ≠ testHash pw' := fun hc => hne (testHash_inj hc).symm
  simp [this]

/-- C2: `LoginUser` fails with `ErrUnauthorizedUser` both when the user
lookup fails and when the supplied password does not verify against the
stored hash (the caller sees the same error value in both cases), fails
with `ErrInternalFailure` exactly when token signing fails, returns the
token otherwise, and returns no error value outside these kinds. -/
theorem c2_loginUser_error_kinds {σ : Type} (env : Env) (repo : Repo σ)
    (st : σ) (now : Int) (ld : LoginUserRequest) :
    ((BaseUserService.LoginUser env repo st now ld).2 = none ∨
      (BaseUserService.LoginUser env repo st now ld).2 = some GoError.errUnauthorizedUser ∨
      (BaseUserService.LoginUser env repo st now ld).2 = some GoError.errInternalFailure) ∧
    ((repo.loginUserWithUsername st ld.login).2.isSome →
      BaseUserService.LoginUser env repo st now ld =
        ("", some GoError.errUnauthorizedUser)) ∧
    ((repo.loginUserWithUsername st ld.login).2 = none →
      (env.bcryptCompare (repo.loginUserWithUsername st ld.login).1.passwdhash
          ld.password).isSome →
      BaseUserService.LoginUser env repo st now ld =
        ("", some GoError.errUnauthorizedUser)) ∧
    ((repo.loginUserWithUsername st ld.login).2 = none →
      env.bcryptCompare (repo.loginUserWithUsername st ld.login).1.passwdhash
          ld.password = none →
      (env.sign { sub := (repo.loginUserWithUsername st ld.login).1.username,
                  exp := now + 24 * 60 * 60, iat := now } env.key).2.isSome →
      BaseUserService.LoginUser env repo st now ld =
        ("", some GoError.errInternalFailure)) ∧
    ((repo.loginUserWithUsername st ld.login).2 = none →
      env.bcryptCompare (repo.loginUserWithUsername st ld.login).1.passwdhash
          ld.password = none →
      (env.sign { sub := (repo.loginUserWithUsername st ld.login).1.username,
                  exp := now + 24 * 60 * 60, iat := now } env.key).2 = none →
      BaseUserService.LoginUser env repo st now ld =
        ((env.sign { sub := (repo.loginUserWithUsername st ld.login).1.username,
                     exp := now + 24 * 60 * 60, iat := now } env.key).1, none)) := by
  simp only [BaseUserService.LoginUser, BaseUserService.generateJWT]
  generalize repo.loginUserWithUsername st ld.login = r
  obtain ⟨row, rerr⟩ := r
  cases rerr with
  | some e => simp
  | none =>
    generalize env.bcryptCompare row.passwdhash ld.password = c
    cases c with
    | some e => simp
    | none =>
      generalize env.sign { sub := row.username, exp := now + 24 * 60 * 60, iat := now } env.key = s
      obtain ⟨tok, serr⟩ := s
      cases serr with
      | some e => simp
      | none => simp

/-- Witness for C2: on the fixture store, logging `alice` in with the
registered password returns her signed token. -/
theorem c2_witness :
    BaseUserService.LoginUser testEnv specRepo testStore 0
        { login := "alice", password := "pw1" } =
      ((testEnv.sign { sub := "alice", exp := 0 + 24 * 60 * 60, iat := 0 }
          testEnv.key).1, none) :=
  (c2_loginUser_error_kinds testEnv specRepo testStore 0
      { login := "alice", password := "pw1" }).2.2.2.2
    (by decide) (by decide) (by decide)

/-- C3: every token a successful `LoginUser` returns is the result of
signing, with the process-wide secret key, claims whose subject is the
authenticated username (the one on the row the lookup produced), whose
issued-at is the issuance instant `now`, and whose expiry is exactly
`now + 24` hours. -/
theorem c3_token_claims {σ : Type} (env : Env) (repo : Repo σ) (st : σ)
    (now : Int) (ld : LoginUserRequest) (tok : String)
    (h : BaseUserService.LoginUser env repo st now ld = (tok, none)) :
    (env.sign { sub := (repo.loginUserWithUsername st ld.login).1.username,
                exp := now + 24 * 60 * 60, iat := now } env.key).2 = none ∧
    tok = (env.sign { sub := (repo.loginUserWithUsername st ld.login).1.username,
                      exp := now + 24 * 60 * 60, iat := now } env.key).1 := by
  simp only [BaseUserService.LoginUser, BaseUserService.generateJWT] at h ⊢
  generalize hr : repo.loginUserWithUsername st ld.login = r at h ⊢
  obtain ⟨row, rerr⟩ := r
  cases rerr with
  | some e => simp at h
  | none =>
    cases hc : env.bcryptCompare row.passwdhash ld.password with
    | some e => rw [hc] at h; simp at h
    | none =>
      rw [hc] at h
      generalize env.sign { sub := row.username, exp := now + 24 * 60 * 60, iat := now } env.key = s at h ⊢
      obtain ⟨tk, serr⟩ := s
      cases serr with
      | some e => simp at h
      | none => simp_all

/-- Witness for C3 at the fixture store and environment. -/
theorem c3_witness :
    (testEnv.sign { sub := (specRepo.loginUserWithUsername testStore "alice").1.username,
                    exp := (0 : Int) + 24 * 60 * 60, iat := 0 } testEnv.key).2 = none ∧
    "hdr.alice.0.86400.secret" =
      (testEnv.sign { sub := (specRepo.loginUserWithUsername testStore "alice").1.username,
                      exp := (0 : Int) + 24 * 60 * 60, iat := 0 } testEnv.key).1 :=
  c3_token_claims testEnv specRepo testStore 0 { login := "alice", password := "pw1" }
    "hdr.alice.0.86400.secret" (by decide)

/-- C10: on a failed tag query `DisplayUserTag` returns the empty list —
never a partial result — alongside the unchanged store error, and
`LoginUser` returns the empty string as the token on every failure
path. -/
theorem c10_nil_on_error {σ : Type} (env : Env) (repo : Repo σ) (st : σ)
    (now : Int) (ld : LoginUserRequest) (username : String) (e : GoError) :
    ((repo.displayUserTag st username).2 = some e →
      BaseUserService.DisplayUserTag repo st username = ([], some e)) ∧
    (∀ tok err, BaseUserService.LoginUser env repo st now ld = (tok, some err) →
      tok = "") := by
  constructor
  · intro hd
    simp only [BaseUserService.DisplayUserTag]
    rw [hd]
  · intro tok err h
    simp only [BaseUserService.LoginUser, BaseUserService.generateJWT] at h
    generalize repo.loginUserWithUsername st ld.login = r at h
    obtain ⟨row, rerr⟩ := r
    cases rerr with
    | some e2 => simp at h; exact h.1.symm
    | none =>
      cases hc : env.bcryptCompare row.passwdhash ld.password with
      | some e2 => rw [hc] at h; simp at h; exact h.1.symm
      | none =>
        rw [hc] at h
        generalize env.sign { sub := row.username, exp := now + 24 * 60 * 60, iat := now } env.key = s at h
        obtain ⟨tk, serr⟩ := s
        cases serr with
        | some e2 => simp at h; exact h.1.symm
        | none => simp at h

/-- Witness for C10: the failing repository yields the empty list with its
error, and a failing login yields the empty token. -/
theorem c10_witness :
    BaseUserService.DisplayUserTag failRepo () "u" = ([], some (GoError.otherError "boom")) ∧
    (BaseUserService.LoginUser testEnv failRepo () 0 { login := "a", password := "b" }).1 = "" := by
  obtain ⟨h1, h2⟩ := c10_nil_on_error testEnv failRepo () 0
    { login := "a", password := "b" } "u" (GoError.otherError "boom")
  exact ⟨h1 (by decide), h2 _ GoError.errUnauthorizedUser (by decide)⟩

/-- C4: `CreateUser` returns `ErrInternalFailure` when request validation
fails, when password hashing fails, or when the store insert fails
(uniqueness violations included, since any insert error takes this
branch), succeeds otherwise, and never returns any other error value. -/
theorem c4_createUser_error_kinds {σ : Type} (env : Env) (repo : Repo σ)
    (st : σ) (req : CreateUserRequest) :
    ((BaseUserService.CreateUser env repo st req).2 = none ∨
      (BaseUserService.CreateUser env repo st req).2 = some GoError.errInternalFailure) ∧
    ((env.validate req).isSome →
      BaseUserService.CreateUser env repo st req =
        (st, some GoError.errInternalFailure)) ∧
    (env.validate req = none →
      (env.bcryptHash req.passwdhash).2.isSome →
      BaseUserService.CreateUser env repo st req =
        (st, some GoError.errInternalFailure)) ∧
    (env.validate req = none →
      (env.bcryptHash req.passwdhash).2 = none →
      (repo.createUser st
          { username := req.username, passwdhash := (env.bcryptHash req.passwdhash).1,
            email := req.email, phoneNumber := req.phoneNumber, age := req.age,
            sex := req.sex }).2.isSome →
      BaseUserService.CreateUser env repo st req =
        ((repo.createUser st
            { username := req.username, passwdhash := (env.bcryptHash req.passwdhash).1,
              email := req.email, phoneNumber := req.phoneNumber, age := req.age,
              sex := req.sex }).1, some GoError.errInternalFailure)) ∧
    (env.validate req = none →
      (env.bcryptHash req.passwdhash).2 = none →
      (repo.createUser st
          { username := req.username, passwdhash := (env.bcryptHash req.passwdhash).1,
            email := req.email, phoneNumber := req.phoneNumber, age := req.age,
            sex := req.sex }).2 = none →
      BaseUserService.CreateUser env repo st req =
        ((repo.createUser st
            { username := req.username, passwdhash := (env.bcryptHash req.passwdhash).1,
              email := req.email, phoneNumber := req.phoneNumber, age := req.age,
              sex := req.sex }).1, none)) := by
  simp only [BaseUserService.CreateUser]
  cases hv : env.validate req with
  | some e => simp
  | none =>
    generalize env.bcryptHash req.passwdhash = hp
    obtain ⟨hv1, herr⟩ := hp
    cases herr with
    | some e => simp
    | none =>
      generalize repo.createUser st { username := req.username, passwdhash := hv1, email := req.email, phoneNumber := req.phoneNumber, age := req.age, sex := req.sex } = cr
      obtain ⟨st2, cerr⟩ := cr
      cases cerr with
      | some e => simp
      | none => simp

/-- Witness for C4: a rejected request yields `ErrInternalFailure`. -/
theorem c4_witness :
    BaseUserService.CreateUser rejectEnv specRepo { users := [], tags := [] } req0 =
      ({ users := [], tags := [] }, some GoError.errInternalFailure) :=
  (c4_createUser_error_kinds rejectEnv specRepo { users := [], tags := [] } req0).2.1
    (by decide)

/-- C7: `GetUser` passes the store row and error through unchanged, and
`AddUserTag`, `DeleteUserTag` and `DisplayUserTag` each return the
underlying store error value itself, not a translated service error. -/
theorem c7_store_error_passthrough {σ : Type} (repo : Repo σ) (st : σ)
    (username tagName : String) (userTag : UserTag) (e : GoError) :
    (BaseUserService.GetUser repo st username = repo.getUserData st username) ∧
    ((repo.insertUserTag st
        { username := username, tagName := userTag.name,
          tagTypeName := userTag.tagType }).2 = some e →
      (BaseUserService.AddUserTag repo st username userTag).2 = some e) ∧
    ((repo.deleteUserTag st { username := username, tagName := tagName }).2 = some e →
      (BaseUserService.DeleteUserTag repo st username tagName).2 = some e) ∧
    ((repo.displayUserTag st username).2 = some e →
      (BaseUserService.DisplayUserTag repo st username).2 = some e) := by
  refine ⟨rfl, ?_, ?_, ?_⟩
  · intro h
    simp only [BaseUserService.AddUserTag]
    rw [h]
  · intro h
    simp only [BaseUserService.DeleteUserTag]
    rw [h]
  · intro h
    simp only [BaseUserService.DisplayUserTag]
    rw [h]

/-- Witness for C7 on the always-failing repository. -/
theorem c7_witness :
    (BaseUserService.AddUserTag failRepo () "u" { name := "vegan", tagType := "diet" }).2 =
      some (GoError.otherError "boom") ∧
    (BaseUserService.DeleteUserTag failRepo () "u" "vegan").2 =
      some (GoError.otherError "boom") ∧
    (BaseUserService.DisplayUserTag failRepo () "u").2 =
      some (GoError.otherError "boom") := by
  obtain ⟨-, h1, h2, h3⟩ := c7_store_error_passthrough failRepo () "u" "vegan"
    { name := "vegan", tagType := "diet" } (GoError.otherError "boom")
  exact ⟨h1 (by decide), h2 (by decide), h3 (by decide)⟩

/-- C8: `UpdateUserSettings` returns `ErrInternalFailure` exactly when the
store update fails, succeeds otherwise, and never returns any other error
value. -/
theorem c8_updateUserSettings_error_kind {σ : Type} (repo : Repo σ) (st : σ)
    (req : UpdateUserSettingsRequest) (username : String) :
    ((BaseUserService.UpdateUserSettings repo st req username).2 = none ∨
      (BaseUserService.UpdateUserSettings repo st req username).2 =
        some GoError.errInternalFailure) ∧
    ((repo.updateUserSettings st
        { username := username, email := req.email, name := req.name,
          surname := req.surname, phoneNumber := req.phoneNumber, age := req.age,
          sex := req.sex, weight := req.weight, height := req.height,
          bmi := req.bmi }).2.isSome →
      (BaseUserService.UpdateUserSettings repo st req username).2 =
        some GoError.errInternalFailure) ∧
    ((repo.updateUserSettings st
        { username := username, email := req.email, name := req.name,
          surname := req.surname, phoneNumber := req.phoneNumber, age := req.age,
          sex := req.sex, weight := req.weight, height := req.height,
          bmi := req.bmi }).2 = none →
      BaseUserService.UpdateUserSettings repo st req username =
        ((repo.updateUserSettings st
            { username := username, email := req.email, name := req.name,
              surname := req.surname, phoneNumber := req.phoneNumber, age := req.age,
              sex := req.sex, weight := req.weight, height := req.height,
              bmi := req.bmi }).1, none)) := by
  simp only [BaseUserService.UpdateUserSettings]
  generalize repo.updateUserSettings st { username := username, email := req.email, name := req.name, surname := req.surname, phoneNumber := req.phoneNumber, age := req.age, sex := req.sex, weight := req.weight, height := req.height, bmi := req.bmi } = u
  obtain ⟨st2, uerr⟩ := u
  cases uerr with
  | some e => simp
  | none => simp

/-- Witness for C8: a failing store update yields `ErrInternalFailure`. -/
theorem c8_witness :
    (BaseUserService.UpdateUserSettings failRepo ()
        { email := "", name := "", surname := "", phoneNumber := "", age := 0,
          sex := "", weight := 0, height := 0, bmi := 0 } "u").2 =
      some GoError.errInternalFailure :=
  (c8_updateUserSettings_error_kind failRepo ()
      { email := "", name := "", surname := "", phoneNumber := "", age := 0,
        sex := "", weight := 0, height := 0, bmi := 0 } "u").2.1 (by decide)

/-- C9: the mock service's `LoginUser` returns the signature of claims
with the fixed subject `"testUser"` under the process key — it takes no
store state at all, so no store call occurs — and its result is
independent of the supplied login data. -/
theorem c9_mock_login_fixed_subject (env : Env) (now : Int)
    (ld ld2 : LoginUserRequest) :
    MockUserService.LoginUser env now ld =
      env.sign { sub := "testUser", exp := now + 24 * 60 * 60, iat := now } env.key ∧
    MockUserService.LoginUser env now ld = MockUserService.LoginUser env now ld2 :=
  ⟨rfl, rfl⟩

lemma specStore_any_username_false {st : Store} {u : String}
    (hnodup : ∀ r ∈ st.users, r.username ≠ u) :
    (st.users.any fun r => r.username == u) = false := by
  rw [List.any_eq_false]
  intro r hr
  simpa using hnodup r hr

/-- C1: registering a fresh (username, password) pair through `CreateUser`
against the spec-modelled store and then calling `LoginUser` with the same
credentials on the resulting store succeeds, returning the signature of
claims whose subject is that username.  The hypotheses say only that the
registration succeeded, that bcrypt verification accepts a hash it
produced, and that signing does not fail. -/
theorem c1_register_then_login (env : Env) (st st' : Store) (now : Int)
    (req : CreateUserRequest)
    (hnodup : ∀ r ∈ st.users, r.username ≠ req.username)
    (hcreate : BaseUserService.CreateUser env specRepo st req = (st', none))
    (hcmp : ∀ pw h, env.bcryptHash pw = (h, none) → env.bcryptCompare h pw = none)
    (hsign : (env.sign { sub := req.username, exp := now + 24 * 60 * 60, iat := now }
        env.key).2 = none) :
    BaseUserService.LoginUser env specRepo st' now
        { login := req.username, password := req.passwdhash } =
      ((env.sign { sub := req.username, exp := now + 24 * 60 * 60, iat := now }
          env.key).1, none) := by
  simp only [BaseUserService.CreateUser] at hcreate
  cases hv : env.validate req with
  | some e => rw [hv] at hcreate; simp at hcreate
  | none =>
    rw [hv] at hcreate
    cases hh : env.bcryptHash req.passwdhash with
    | mk hv1 herr =>
      rw [hh] at hcreate
      cases herr with
      | some e => simp at hcreate
      | none =>
        simp only [specRepo, specCreateUser] at hcreate
        rw [specStore_any_username_false hnodup] at hcreate
        simp only [Bool.false_eq_true, if_false, Prod.mk.injEq] at hcreate
        obtain ⟨hst, -⟩ := hcreate
        have husers : st'.users = st.users ++ [specNewUserRow ⟨req.username, hv1, req.email, req.phoneNumber, req.age, req.sex⟩] := by
          rw [← hst]
        have hnone : List.find? (fun r => r.username == req.username) st.users = none := by
          rw [List.find?_eq_none]
          intro r hr
          simpa using hnodup r hr
        have hc := hcmp req.passwdhash hv1 hh
        have h86 : (24 * 60 * 60 : Int) = 86400 := by norm_num
        rw [h86] at hsign ⊢
        simp only [BaseUserService.LoginUser, BaseUserService.generateJWT,
          specRepo, specLoginUserWithUsername, husers, List.find?_append, hnone,
          Option.none_or, specNewUserRow, hc, h86]
        cases hs : env.sign { sub := req.username, exp := now + 86400, iat := now } env.key with
        | mk tk serr =>
          simp only [hs] at hsign
          cases serr with
          | some e => simp at hsign
          | none => simp [hs, hc]

/-- Witness for C1: registering `alice` in the empty store and logging in
with the same password returns her signed token. -/
theorem c1_witness :
    BaseUserService.LoginUser testEnv specRepo
        (BaseUserService.CreateUser testEnv specRepo { users := [], tags := [] } req0).1 0
        { login := "alice", password := "pw1" } =
      ((testEnv.sign { sub := "alice", exp := (0 : Int) + 24 * 60 * 60, iat := 0 }
          testEnv.key).1, none) :=
  c1_register_then_login testEnv { users := [], tags := [] }
    (BaseUserService.CreateUser testEnv specRepo { users := [], tags := [] } req0).1 0 req0
    (by simp) (by decide) testEnv_compare_ok (by decide)

/-- C5: a password accepted by `CreateUser` is persisted only as its
bcrypt hash: the stored row carries exactly the hash bcrypt produced for
the request's plaintext, which — under bcrypt's contract — never equals
the plaintext, verifies against the correct plaintext, and fails against
every other plaintext. -/
theorem c5_stored_hash_contract (env : Env) (st st' : Store)
    (req : CreateUserRequest)
    (hne : ∀ pw h, env.bcryptHash pw = (h, none) → h ≠ pw)
    (hok : ∀ pw h, env.bcryptHash pw = (h, none) → env.bcryptCompare h pw = none)
    (hbad : ∀ pw pw' h, env.bcryptHash pw = (h, none) → pw' ≠ pw →
      env.bcryptCompare h pw' ≠ none)
    (hcreate : BaseUserService.CreateUser env specRepo st req = (st', none)) :
    ∃ r ∈ st'.users, r.username = req.username ∧
      r.passwdhash = (env.bcryptHash req.passwdhash).1 ∧
      r.passwdhash ≠ req.passwdhash ∧
      env.bcryptCompare r.passwdhash req.passwdhash = none ∧
      ∀ pw', pw' ≠ req.passwdhash → env.bcryptCompare r.passwdhash pw' ≠ none := by
  simp only [BaseUserService.CreateUser] at hcreate
  cases hv : env.validate req with
  | some e => rw [hv] at hcreate; simp at hcreate
  | none =>
    rw [hv] at hcreate
    cases hh : env.bcryptHash req.passwdhash with
    | mk hv1 herr =>
      rw [hh] at hcreate
      cases herr with
      | some e => simp at hcreate
      | none =>
        simp only [specRepo, specCreateUser] at hcreate
        cases hany : (st.users.any fun r => r.username == req.username) with
        | true => rw [hany] at hcreate; simp at hcreate
        | false =>
          rw [hany] at hcreate
          simp only [Bool.false_eq_true, if_false, Prod.mk.injEq] at hcreate
          obtain ⟨hst, -⟩ := hcreate
          refine ⟨specNewUserRow ⟨req.username, hv1, req.email, req.phoneNumber, req.age, req.sex⟩, ?_, ?_, ?_, ?_, ?_, ?_⟩
          · rw [← hst]
            simp
          · simp [specNewUserRow]
          · simp [specNewUserRow, hh]
          · simpa [specNewUserRow] using hne req.passwdhash hv1 hh
          · simpa [specNewUserRow] using hok req.passwdhash hv1 hh
          · intro pw' hp
            simpa [specNewUserRow] using hbad req.passwdhash pw' hv1 hh hp

/-- Witness for C5 at the concrete environment and the empty store. -/
theorem c5_witness :
    ∃ r ∈ (BaseUserService.CreateUser testEnv specRepo { users := [], tags := [] } req0).1.users,
      r.username = req0.username ∧
      r.passwdhash = (testEnv.bcryptHash req0.passwdhash).1 ∧
      r.passwdhash ≠ req0.passwdhash ∧
      testEnv.bcryptCompare r.passwdhash req0.passwdhash = none ∧
      ∀ pw', pw' ≠ req0.passwdhash → testEnv.bcryptCompare r.passwdhash pw' ≠ none :=
  c5_stored_hash_contract testEnv { users := [], tags := [] }
    (BaseUserService.CreateUser testEnv specRepo { users := [], tags := [] } req0).1 req0
    testEnv_hash_ne testEnv_compare_ok testEnv_compare_bad (by decide)

/-- C6: on the spec-modelled store, a successful `AddUserTag` followed by
`DisplayUserTag` returns a list containing the added (name, type) pair,
and `DeleteUserTag` of that tag name followed by `DisplayUserTag` returns
a list that no longer contains it. -/
theorem c6_tag_roundtrip (st st2 : Store) (username : String) (tag : UserTag)
    (hadd : (BaseUserService.AddUserTag specRepo st username tag).2 = none) :
    ({ tagName := tag.name, tagTypeName := tag.tagType } : DisplayUserTagRow) ∈
      (BaseUserService.DisplayUserTag specRepo
        (BaseUserService.AddUserTag specRepo st username tag).1 username).1 ∧
    ({ tagName := tag.name, tagTypeName := tag.tagType } : DisplayUserTagRow) ∉
      (BaseUserService.DisplayUserTag specRepo
        (BaseUserService.DeleteUserTag specRepo st2 username tag.name).1 username).1 := by
  constructor
  · simp only [BaseUserService.AddUserTag, specRepo, specInsertUserTag] at hadd ⊢
    cases hc : (st.tags.any fun t => t.username == username && t.tagName == tag.name) with
    | true => rw [hc] at hadd; simp at hadd
    | false =>
      simp [BaseUserService.DisplayUserTag, specDisplayUserTag, List.filterMap_append]
  · simp only [BaseUserService.DeleteUserTag, specRepo, specDeleteUserTag,
      BaseUserService.DisplayUserTag, specDisplayUserTag]
    intro hmem
    rw [List.mem_filterMap] at hmem
    obtain ⟨t, ht, hft⟩ := hmem
    rw [List.mem_filter] at ht
    obtain ⟨-, hkeep⟩ := ht
    cases hu : t.username == username with
    | false => rw [hu] at hft; simp at hft
    | true =>
      rw [hu] at hft
      simp only [if_true] at hft
      simp only [Option.some.injEq, DisplayUserTagRow.mk.injEq] at hft
      obtain ⟨hn, -⟩ := hft
      rw [hu, hn] at hkeep
      simp at hkeep

/-- Witness for C6: adding the tag (vegan, diet) to `u1` in the empty
store makes it listed, and deleting it from a store that has it removes it
from the listing. -/
theorem c6_witness :
    ({ tagName := "vegan", tagTypeName := "diet" } : DisplayUserTagRow) ∈
      (BaseUserService.DisplayUserTag specRepo
        (BaseUserService.AddUserTag specRepo { users := [], tags := [] } "u1"
          { name := "vegan", tagType := "diet" }).1 "u1").1 ∧
    ({ tagName := "vegan", tagTypeName := "diet" } : DisplayUserTagRow) ∉
      (BaseUserService.DisplayUserTag specRepo
        (BaseUserService.DeleteUserTag specRepo
          { users := [], tags := [{ username := "u1", tagName := "vegan", tagTypeName := "diet" }] }
          "u1" "vegan").1 "u1").1 :=
  c6_tag_roundtrip { users := [], tags := [] }
    { users := [], tags := [{ username := "u1", tagName := "vegan", tagTypeName := "diet" }] }
    "u1" { name := "vegan", tagType := "diet" } (by decide)
